import Mathlib

/-!
Shallow embedding of `src/viz_classes/leak_mapper.py` (the `leakMapper`
class: database-backed methane-leak map builder) and verification of its
specification claims.

Modelling conventions:
* Python/pandas floating-point cells are modelled by `PFloat`: an exact
  rational plus the IEEE special values NaN, +inf, -inf.  The source only
  ever applies `np.isnan`, pandas `mean`/`min`/`max` (which skip NaN), and
  list building to these cells, so the exact-rational model is faithful.
* pandas DataFrames become lists of records; the `photos` table a list of
  `PhotoRow`.
* `print` side effects are modelled as an explicitly returned list of log
  strings; a raised Python exception is an `Except.error`.
* folium objects (`Map`, `FeatureGroup`, `Marker`, `Popup`) are modelled as
  inert data recording exactly the arguments the source passes to them.
-/

/-- A pandas float cell: an exact rational, or one of the IEEE special
values NaN / +infinity / -infinity. -/
inductive PFloat where
  | val (q : ℚ)
  | nan
  | inf
  | ninf
deriving DecidableEq, Repr

/-- `np.isnan` on a `PFloat`. True only on NaN (in particular false on the
infinities — this distinction matters for the placement condition in
`plot_popups`). -/
def PFloat.isnan : PFloat → Bool
  | .nan => true
  | _ => false

/-- Finiteness of a `PFloat` (spec-side vocabulary: "finite" excludes NaN
and both infinities). -/
def PFloat.isFinite : PFloat → Bool
  | .val _ => true
  | _ => false

/-- IEEE-style addition on `PFloat` (exact on rationals; NaN absorbs;
`inf + ninf = nan`). Used to model pandas' `Series.sum` inside `mean`. -/
def PFloat.add : PFloat → PFloat → PFloat
  | .nan, _ => .nan
  | _, .nan => .nan
  | .inf, .ninf => .nan
  | .ninf, .inf => .nan
  | .inf, _ => .inf
  | _, .inf => .inf
  | .ninf, _ => .ninf
  | _, .ninf => .ninf
  | .val a, .val b => .val (a + b)

/-- Division of a `PFloat` by a positive count, for `mean`. -/
def PFloat.divNat : PFloat → Nat → PFloat
  | .val q, n => .val (q / n)
  | .inf, _ => .inf
  | .ninf, _ => .ninf
  | .nan, _ => .nan

/-- Binary minimum on non-NaN `PFloat`s (`ninf < val _ < inf`); the NaN
rows are never reached because the series operations filter NaN first. -/
def PFloat.min2 : PFloat → PFloat → PFloat
  | .ninf, _ => .ninf
  | _, .ninf => .ninf
  | .inf, y => y
  | x, .inf => x
  | .nan, y => y
  | x, .nan => x
  | .val a, .val b => .val (min a b)

/-- Binary maximum on non-NaN `PFloat`s. -/
def PFloat.max2 : PFloat → PFloat → PFloat
  | .inf, _ => .inf
  | _, .inf => .inf
  | .ninf, y => y
  | x, .ninf => x
  | .nan, y => y
  | x, .nan => x
  | .val a, .val b => .val (max a b)

/-- pandas `Series.min` with the default `skipna=True`: NaN entries are
dropped; the min of an empty (or all-NaN) series is NaN. -/
def seriesMin (xs : List PFloat) : PFloat :=
  match xs.filter (fun x => !x.isnan) with
  | [] => .nan
  | y :: ys => ys.foldl PFloat.min2 y

/-- pandas `Series.max` with the default `skipna=True`. -/
def seriesMax (xs : List PFloat) : PFloat :=
  match xs.filter (fun x => !x.isnan) with
  | [] => .nan
  | y :: ys => ys.foldl PFloat.max2 y

/-- pandas `Series.mean` with the default `skipna=True`: the sum of the
non-NaN entries over their count; NaN for an empty/all-NaN series. -/
def seriesMean (xs : List PFloat) : PFloat :=
  match xs.filter (fun x => !x.isnan) with
  | [] => .nan
  | y :: ys => ((y :: ys).foldl PFloat.add (.val 0)).divNat (y :: ys).length

/-! ### Base64 (`base64.b64encode(...).decode('utf-8')` in `get_image`) -/

/-- The standard base64 alphabet. -/
def b64Table : List Char :=
  "ABCDEFGHIJKLMNOPQRSTUVWXYZabcdefghijklmnopqrstuvwxyz0123456789+/".toList

/-- The base64 character for a 6-bit group. -/
def encChar (i : Nat) : Char := b64Table.getD i 'A'

/-- Scan a list for a character, returning its index. -/
def decCharAux : List Char → Nat → Char → Option Nat
  | [], _, _ => none
  | t :: ts, i, c => if t = c then some i else decCharAux ts (i + 1) c

/-- The 6-bit group for a base64 character, if it is in the alphabet. -/
def decChar (c : Char) : Option Nat := decCharAux b64Table 0 c

/-- Standard base64 encoding of a byte string (RFC 4648, `=`-padded),
exactly what Python's `base64.b64encode` produces. Bytes are `Fin 256`. -/
def b64encode : List (Fin 256) → List Char
  | [] => []
  | [a] => [encChar (a.val / 4), encChar (a.val % 4 * 16), '=', '=']
  | [a, b] => [encChar (a.val / 4), encChar (a.val % 4 * 16 + b.val / 16),
               encChar (b.val % 16 * 4), '=']
  | a :: b :: c :: rest =>
      encChar (a.val / 4) :: encChar (a.val % 4 * 16 + b.val / 16) ::
      encChar (b.val % 16 * 4 + c.val / 64) :: encChar (c.val % 64) ::
      b64encode rest

/-- Strict base64 decoding: four-character groups, `=`-padding allowed only
in the final group, the unused low bits of the final group required to be
zero. Returns the byte values. -/
def b64decode : List Char → Option (List Nat)
  | [] => some []
  | c1 :: c2 :: c3 :: c4 :: rest =>
    if c3 = '=' then
      if c4 = '=' ∧ rest = [] then
        match decChar c1, decChar c2 with
        | some a, some x => if x % 16 = 0 then some [a * 4 + x / 16] else none
        | _, _ => none
      else none
    else if c4 = '=' then
      if rest = [] then
        match decChar c1, decChar c2, decChar c3 with
        | some a, some x, some y =>
            if y % 4 = 0 then some [a * 4 + x / 16, x % 16 * 16 + y / 4] else none
        | _, _, _ => none
      else none
    else
      match decChar c1, decChar c2, decChar c3, decChar c4 with
      | some a, some x, some y, some z =>
        match b64decode rest with
        | some tl => some ((a * 4 + x / 16) :: (x % 16 * 16 + y / 4) :: (y % 4 * 64 + z) :: tl)
        | none => none
      | _, _, _, _ => none
  | _ => none

theorem decChar_encChar : ∀ i : Nat, i < 64 → decChar (encChar i) = some i := by
  decide

theorem encChar_ne_pad : ∀ i : Nat, i < 64 → encChar i ≠ '=' := by
  decide

/-- Base64 round trip: decoding an encoded byte string gives back exactly
the original bytes. -/
theorem b64_roundtrip (l : List (Fin 256)) :
    b64decode (b64encode l) = some (l.map Fin.val) := by
  induction l using b64encode.induct with
  | case1 => simp [b64encode, b64decode]
  | case2 a =>
    have ha := a.isLt
    have h1 := decChar_encChar (a.val / 4) (by omega)
    have h2 := decChar_encChar (a.val % 4 * 16) (by omega)
    simp [b64encode, b64decode, h1, h2, Nat.mul_mod_left]
    omega
  | case3 a b =>
    have ha := a.isLt
    have hb := b.isLt
    have h1 := decChar_encChar (a.val / 4) (by omega)
    have h2 := decChar_encChar (a.val % 4 * 16 + b.val / 16) (by omega)
    have h3 := decChar_encChar (b.val % 16 * 4) (by omega)
    have hne := encChar_ne_pad (b.val % 16 * 4) (by omega)
    simp [b64encode, b64decode, h1, h2, h3, hne, Nat.mul_mod_left]
    constructor
    · omega
    · omega
  | case4 a b c rest ih =>
    have ha := a.isLt
    have hb := b.isLt
    have hc := c.isLt
    have h1 := decChar_encChar (a.val / 4) (by omega)
    have h2 := decChar_encChar (a.val % 4 * 16 + b.val / 16) (by omega)
    have h3 := decChar_encChar (b.val % 16 * 4 + c.val / 64) (by omega)
    have h4 := decChar_encChar (c.val % 64) (by omega)
    have hne3 := encChar_ne_pad (b.val % 16 * 4 + c.val / 64) (by omega)
    have hne4 := encChar_ne_pad (c.val % 64) (by omega)
    simp [b64encode, b64decode, h1, h2, h3, h4, hne3, hne4, ih]
    refine ⟨by omega, by omega, by omega⟩

/-! ### Data model -/

/-- One row of the `measurements` table, as iterated by
`plot_popups`.  `methane_level`, `timestamp` and
`type_of_infrastructure` are modelled by their rendered string form (the
source only ever interpolates them into popup HTML; timestamps have in any
case been converted to strings by the sanitization step before rendering). -/
structure Row where
  photo_id : Int
  longitude : PFloat
  latitude : PFloat
  methane_level : String
  timestamp : String
  type_of_infrastructure : String
  leak : Bool
deriving DecidableEq, Repr

/-- One row of the `photos` table: a photo id and the raw JPEG bytes. -/
structure PhotoRow where
  photo_id : Int
  photo : List (Fin 256)
deriving DecidableEq, Repr

/-- The GeoDataFrame built by `set_gdf`: the measurement rows, the derived
point geometry (`Point(longitude, latitude)` per row, from
`gpd.points_from_xy`), and the coordinate reference system (EPSG code),
unset until assigned. -/
structure GeoDF where
  rows : List Row
  geometry : List (PFloat × PFloat)
  crs : Option Nat
deriving DecidableEq, Repr

/-- A folium marker: the `location=[lat, lon]` argument and the popup HTML. -/
structure Marker where
  location : List PFloat
  popup : String
deriving DecidableEq, Repr

/-- The folium map, recording the constructor arguments, the fitted bounds,
the feature-group layers added (in order, each with its name), the layer
control, and the file the map was saved to. -/
structure FMap where
  location : List PFloat
  zoom_start : Nat
  control_scale : Bool
  max_bounds : Bool
  fitted_bounds : List (List PFloat)
  layers : List (String × List Marker)
  has_layer_control : Bool
  saved_as : Option String
deriving DecidableEq, Repr

/-- The SQLite database behind the SQLAlchemy engine: reachability, the
measurement-shaped tables by name, and the `photos` table if present. -/
structure Database where
  reachable : Bool
  tables : List (String × List Row)
  photos : Option (List PhotoRow)

/-- The `leakMapper` object's state.  The `engine` is represented by
`path_to_db` (the connection string is derived from it); `conn` is the
optional raw sqlite3 connection of `connect`/`close_connection`. -/
structure leakMapper where
  conn : Bool
  path_to_db : String
  table : String
  city : String
  df : Option (List Row)
  gdf : Option GeoDF
  map : Option FMap
  map_name : String
  imgdf : List PhotoRow
deriving DecidableEq, Repr

/-! ### Module-level parameters (source lines 52-56; `current_dir` is the
process working directory, modelled as the empty prefix). -/

def DATABASE : String := "methane_project_DB"

def PATH_TO_DB : String := "data/" ++ DATABASE

def TABLE_NAME : String := "measurements"

/-! ### Operations -/

/-- `pd.read_sql_table('photos', engine)`: fails (raises) if the database
file cannot be opened or the table is missing. -/
def read_sql_table_photos (db : Database) : Except String (List PhotoRow) :=
  if db.reachable then
    match db.photos with
    | some t => .ok t
    | none => .error "Table photos not found"
  else .error "unable to open database file"

/-- `pd.read_sql_table(name, engine)` for a measurement-shaped table. -/
def read_sql_table (db : Database) (name : String) : Except String (List Row) :=
  if db.reachable then
    match db.tables.find? (fun t => t.1 = name) with
    | some t => .ok t.2
    | none => .error ("Table " ++ name ++ " not found")
  else .error "unable to open database file"

/-- `leakMapper.__init__`: stores the configuration, initializes `df`,
`gdf`, `map` to `None`, derives the output filename from `city`, and
eagerly reads the whole `photos` table into `imgdf`.  The photo read is
not wrapped in any handler and `__init__` prints nothing, so a failure
propagates as a bare exception and no instance is produced. -/
def leakMapper_init (db : Database) (path_to_db table_name city : String) :
    Except String leakMapper :=
  match read_sql_table_photos db with
  | .error e => .error e
  | .ok imgdf => .ok
      { conn := false
        path_to_db := path_to_db
        table := table_name
        city := city
        df := none
        gdf := none
        map := none
        map_name := city ++ "_maine_map.html"
        imgdf := imgdf }

/-- `leakMapper.connect`: open the raw connection if not already open. -/
def connect (m : leakMapper) : leakMapper :=
  if m.conn then m else { m with conn := true }

/-- `leakMapper.close_connection`: close the raw connection if open. -/
def close_connection (m : leakMapper) : leakMapper :=
  if m.conn then { m with conn := false } else m

/-- `leakMapper.set_df`: read the measurement table into `df` and print it;
on failure print a diagnostic and re-raise. -/
def set_df (db : Database) (m : leakMapper) :
    Except String leakMapper × List String :=
  match read_sql_table db m.table with
  | .error e => (.error e, ["Error retrieving data from databse. " ++ e])
  | .ok rows => (.ok { m with df := some rows }, [reprStr rows])

/-- `leakMapper.set_gdf`: if `df` is unset, print a diagnostic and return;
otherwise build the GeoDataFrame from `df` with geometry
`points_from_xy(df['longitude'], df['latitude'])` (no CRS is passed, so the
CRS is left unassigned) and print it. -/
def set_gdf (m : leakMapper) : leakMapper × List String :=
  match m.df with
  | none => (m, ["DataFrame is not set. Call set_df() first."])
  | some rows =>
    let g : GeoDF :=
      { rows := rows
        geometry := rows.map (fun r => (r.longitude, r.latitude))
        crs := none }
    ({ m with gdf := some g }, [reprStr g])

/-- `leakMapper.get_image`: look up the rows of `imgdf` whose `photo_id`
matches; take the first match's blob, base64-encode it, and wrap it in an
inline JPEG `img` tag; if there is no match (`IndexError` on `values[0]`),
print a message and return the placeholder paragraph.  Returns the HTML
together with the printed output. -/
def get_image (imgdf : List PhotoRow) (photo_id : Int) : String × List String :=
  match imgdf.filter (fun p => p.photo_id == photo_id) with
  | [] => ("<p>No image available</p>",
           ["No matching image found for photo_id == " ++ toString photo_id])
  | p :: _ =>
      ("<img src=\"data:image/jpeg;base64," ++ String.mk (b64encode p.photo) ++
       "\" width=\"150\" height=\"100\">", [])

/-- The popup HTML f-string assembled for one row (source lines 174-180,
including the source's literal spelling and indentation). -/
def popupHtml (r : Row) (image_html : String) : String :=
  "\n                        <h4>Methane reading: " ++ r.methane_level ++
  " ppm </h4>\n                        <h4>Date/time recorded: " ++ r.timestamp ++
  " </h4>\n                        <h4>Infastructure type: " ++ r.type_of_infrastructure ++
  " </h4>\n                        <h4>Picture:</h4>\n                        " ++
  image_html ++ "\n                        "

/-- The marker built for one placed row: `location=[lat, lon]` and the
popup wrapping `get_image`'s HTML for the row's photo id. -/
def markerFor (imgdf : List PhotoRow) (r : Row) : Marker :=
  { location := [r.latitude, r.longitude]
    popup := popupHtml r (get_image imgdf r.photo_id).1 }

/-- The marker-placement loop of `plot_popups` (source lines 167-190): for
each row in order, if neither coordinate is NaN, resolve the image and add
the marker to the Non Zero feature group when `row['leak']` is truthy, else
to the Zeros group; otherwise do nothing for the row.  Returns (Non Zero
markers, Zeros markers, printed output). -/
def placeMarkers (imgdf : List PhotoRow) : List Row → List Marker × List Marker × List String
  | [] => ([], [], [])
  | r :: rs =>
    if !(r.latitude.isnan || r.longitude.isnan) then
      if r.leak then
        (markerFor imgdf r :: (placeMarkers imgdf rs).1,
         (placeMarkers imgdf rs).2.1,
         (get_image imgdf r.photo_id).2 ++ (placeMarkers imgdf rs).2.2)
      else
        ((placeMarkers imgdf rs).1,
         markerFor imgdf r :: (placeMarkers imgdf rs).2.1,
         (get_image imgdf r.photo_id).2 ++ (placeMarkers imgdf rs).2.2)
    else placeMarkers imgdf rs

/-- `leakMapper.plot_popups`: if `gdf` is unset, print a diagnostic and
return; otherwise assign CRS EPSG:4326 on `gdf` in place, sanitize
date-time columns to strings (identity here: timestamps are already
modelled as their string form), create the folium map centered at the mean
of the geometry's y (latitude) and x (longitude) with `zoom_start=13`, fit
it to `[[min_lat, min_lon], [max_lat, max_lon]]` of the geometry, run the
marker loop, add the two feature groups and a layer control, and save the
map under `map_name`. -/
def plot_popups (m : leakMapper) : leakMapper × List String :=
  match m.gdf with
  | none => (m, ["GeoDataFrame is not set. Call set_gdf() first."])
  | some g =>
    let g2 : GeoDF := { g with crs := some 4326 }
    let lats := g2.geometry.map (fun p => p.2)
    let lons := g2.geometry.map (fun p => p.1)
    let pm := placeMarkers m.imgdf g2.rows
    let fm : FMap :=
      { location := [seriesMean lats, seriesMean lons]
        zoom_start := 13
        control_scale := true
        max_bounds := true
        fitted_bounds := [[seriesMin lats, seriesMin lons],
                          [seriesMax lats, seriesMax lons]]
        layers := [("Non Zero", pm.1), ("Zeros", pm.2.1)]
        has_layer_control := true
        saved_as := some m.map_name }
    ({ m with gdf := some g2, map := some fm },
     pm.2.2 ++ ["Map has been saved to " ++ m.map_name])

/-- `leakMapper.execute`: the three pipeline stages in order; an exception
from `set_df` propagates. -/
def execute (db : Database) (m : leakMapper) :
    Except String leakMapper × List String :=
  match set_df db m with
  | (.error e, logs) => (.error e, logs)
  | (.ok m1, logs1) =>
    let r2 := set_gdf m1
    let r3 := plot_popups r2.1
    (.ok r3.1, logs1 ++ r2.2 ++ r3.2)

/-- A Python call to the `leakMapper` constructor with a positional
argument list: binding succeeds only when exactly the three required
parameters `(path_to_db, table_name, city)` are supplied; otherwise the
call raises `TypeError` before `__init__`'s body (and hence before any
database access) runs. -/
def callLeakMapper (db : Database) (args : List String) : Except String leakMapper :=
  match args with
  | [p, t, c] => leakMapper_init db p t c
  | _ => .error "TypeError: __init__ takes 4 positional arguments: missing city"

/-- `main` (source lines 216-219; named `main_entry` here because Lean
reserves `main` for IO entry points): construct the mapper with only
`PATH_TO_DB` and `TABLE_NAME`, then run `execute` on it. -/
def main_entry (db : Database) : Except String leakMapper × List String :=
  match callLeakMapper db [PATH_TO_DB, TABLE_NAME] with
  | .error e => (.error e, [])
  | .ok m => execute db m

/-! ### Spec-side vocabulary -/

/-- A row is placeable when neither coordinate is NaN — exactly the guard
of the placement loop. -/
def placeable (r : Row) : Bool := !(r.latitude.isnan || r.longitude.isnan)

/-- The claimed bounding box `[[min_lat, min_lon], [max_lat, max_lon]]` of
a set of rows. -/
def boundsRows (rows : List Row) : List (List PFloat) :=
  [[seriesMin (rows.map (fun r => r.latitude)), seriesMin (rows.map (fun r => r.longitude))],
   [seriesMax (rows.map (fun r => r.latitude)), seriesMax (rows.map (fun r => r.longitude))]]

/-- Is `p` a prefix of `s` (as character lists)? -/
def isPrefixList : List Char → List Char → Bool
  | [], _ => true
  | _ :: _, [] => false
  | p :: ps, c :: cs => p == c && isPrefixList ps cs

/-- Does the character list `s` contain `pat` as a contiguous sublist? -/
def containsList (pat : List Char) : List Char → Bool
  | [] => isPrefixList pat []
  | c :: cs => isPrefixList pat (c :: cs) || containsList pat cs

/-- Substring test: does `s` contain `pat`? -/
def containsStr (s pat : String) : Bool := containsList pat.toList s.toList

/-! ### Helper lemmas -/

/-- The placement loop, characterized: the Non Zero layer holds exactly one
marker per placeable leak row, the Zeros layer one per placeable non-leak
row (in table order), and the printed output is the concatenation of the
image-lookup output of the placeable rows. -/
theorem placeMarkers_eq (imgdf : List PhotoRow) (rows : List Row) :
    placeMarkers imgdf rows =
      ((rows.filter (fun r => placeable r && r.leak)).map (markerFor imgdf),
       (rows.filter (fun r => placeable r && !r.leak)).map (markerFor imgdf),
       ((rows.filter placeable).map (fun r => (get_image imgdf r.photo_id).2)).flatten) := by
  induction rows with
  | nil => rfl
  | cons r rs ih =>
    cases hlat : r.latitude.isnan <;> cases hlon : r.longitude.isnan <;>
      cases hl : r.leak <;>
      simp [placeMarkers, placeable, List.filter, hlat, hlon, hl, ih]

/-- Rows failing the NaN guard contribute nothing at all to the placement
loop: neither a marker in either layer nor any printed output. -/
theorem placeMarkers_skip (imgdf : List PhotoRow) (rows : List Row) :
    placeMarkers imgdf rows = placeMarkers imgdf (rows.filter placeable) := by
  induction rows with
  | nil => rfl
  | cons r rs ih =>
    cases hp : placeable r
    · have hg : (!(r.latitude.isnan || r.longitude.isnan)) = false := hp
      simp [placeMarkers, List.filter, hp, hg, ih]
    · have hg : (!(r.latitude.isnan || r.longitude.isnan)) = true := hp
      simp only [placeMarkers, List.filter, hp, hg, if_true]
      rw [ih]

/-- Every marker the loop places has a NaN-free location. -/
theorem placeMarkers_nonnan (imgdf : List PhotoRow) (rows : List Row) :
    ∀ mk ∈ (placeMarkers imgdf rows).1 ++ (placeMarkers imgdf rows).2.1,
      ∀ x ∈ mk.location, x.isnan = false := by
  rw [placeMarkers_eq]
  intro mk hmk x hx
  have hcase : ∃ r, r ∈ rows ∧ placeable r = true ∧ mk = markerFor imgdf r := by
    rcases List.mem_append.mp hmk with h | h
    · obtain ⟨r, hr, rfl⟩ := List.mem_map.mp h
      have := List.mem_filter.mp hr
      refine ⟨r, this.1, ?_, rfl⟩
      have h2 := this.2
      simp at h2
      exact h2.1
    · obtain ⟨r, hr, rfl⟩ := List.mem_map.mp h
      have := List.mem_filter.mp hr
      refine ⟨r, this.1, ?_, rfl⟩
      have h2 := this.2
      simp at h2
      exact h2.1
  obtain ⟨r, _, hp, rfl⟩ := hcase
  have hlat : r.latitude.isnan = false := by
    unfold placeable at hp
    cases h : r.latitude.isnan <;> simp [h] at hp ⊢
  have hlon : r.longitude.isnan = false := by
    unfold placeable at hp
    cases h : r.longitude.isnan <;> simp [h] at hp ⊢
  simp [markerFor] at hx
  rcases hx with rfl | rfl
  · exact hlat
  · exact hlon

/-- Filtering the NaN entries out of a projected column equals projecting
the placeable rows, whenever the projection is NaN exactly on the
unplaceable rows. -/
theorem filter_map_placeable (f : Row → PFloat) (rows : List Row)
    (hf : ∀ r ∈ rows, (f r).isnan = !(placeable r)) :
    (rows.map f).filter (fun x => !x.isnan) = (rows.filter placeable).map f := by
  induction rows with
  | nil => rfl
  | cons r rs ih =>
    have hr := hf r (by simp)
    have hrs : ∀ q ∈ rs, (f q).isnan = !(placeable q) := fun q hq => hf q (by simp [hq])
    cases hp : placeable r <;> simp [List.filter, hr, hp, ih hrs]

/-- The NaN-skipping series minimum and maximum only depend on the non-NaN
entries. -/
theorem series_congr (xs ys : List PFloat)
    (h : xs.filter (fun x => !x.isnan) = ys.filter (fun x => !x.isnan)) :
    seriesMin xs = seriesMin ys ∧ seriesMax xs = seriesMax ys := by
  constructor
  · unfold seriesMin; rw [h]
  · unfold seriesMax; rw [h]

/-- Under the both-or-neither-NaN hypothesis, the NaN-skipping min/max of a
column over all rows coincide with the min/max over the placeable rows. -/
theorem series_placed (f : Row → PFloat) (rows : List Row)
    (hf : ∀ r ∈ rows, (f r).isnan = !(placeable r)) :
    seriesMin (rows.map f) = seriesMin ((rows.filter placeable).map f)
    ∧ seriesMax (rows.map f) = seriesMax ((rows.filter placeable).map f) := by
  have h1 : (rows.map f).filter (fun x => !x.isnan) = (rows.filter placeable).map f :=
    filter_map_placeable f rows hf
  have h2 : ((rows.filter placeable).map f).filter (fun x => !x.isnan)
      = (rows.filter placeable).map f := by
    apply List.filter_eq_self.mpr
    intro x hx
    obtain ⟨r, hr, rfl⟩ := List.mem_map.mp hx
    have hm := List.mem_filter.mp hr
    simp [hf r hm.1, hm.2]
  exact series_congr _ _ (h1.trans h2.symm)

/-! ### Concrete fixtures (inputs for witnesses and counterexamples) -/

def photosFix : List PhotoRow := [⟨1, [255, 216, 255]⟩]

def rowLeak : Row :=
  { photo_id := 1, longitude := .val (-70), latitude := .val 43,
    methane_level := "5.2", timestamp := "2024-07-19 10:00:00",
    type_of_infrastructure := "pipeline", leak := true }

def rowNoLeak : Row :=
  { photo_id := 99, longitude := .val (-141/2), latitude := .val (87/2),
    methane_level := "0.0", timestamp := "2024-07-19 11:00:00",
    type_of_infrastructure := "valve", leak := false }

def rowNan : Row :=
  { photo_id := 2, longitude := .val (-80), latitude := .nan,
    methane_level := "1.0", timestamp := "2024-07-19 12:00:00",
    type_of_infrastructure := "valve", leak := true }

def rowInfLat : Row :=
  { photo_id := 3, longitude := .val 0, latitude := .inf,
    methane_level := "2.0", timestamp := "2024-07-19 13:00:00",
    type_of_infrastructure := "pipeline", leak := true }

/-- A mapper object in a given pipeline state (as left by a successful
`__init__` on `photosFix`, with `df`/`gdf` set as requested). -/
def mkMapper (df : Option (List Row)) (gdf : Option GeoDF) : leakMapper :=
  { conn := false, path_to_db := PATH_TO_DB, table := TABLE_NAME,
    city := "portland", df := df, gdf := gdf, map := none,
    map_name := "portland_maine_map.html", imgdf := photosFix }

def gdfFix : GeoDF :=
  { rows := [rowLeak, rowNoLeak, rowNan]
    geometry := [rowLeak, rowNoLeak, rowNan].map (fun r => (r.longitude, r.latitude))
    crs := none }

def gdfInf : GeoDF :=
  { rows := [rowInfLat]
    geometry := [rowInfLat].map (fun r => (r.longitude, r.latitude))
    crs := none }

/-! ### Claims -/

/-- C1: for every measurement row whose latitude and longitude are both
present (not NaN), `plot_popups` produces exactly one marker for that row
— the "Non Zero" layer holds exactly the markers of the placeable rows
whose leak flag is true (one each, in table order) and the "Zeros" layer
exactly those of the placeable rows whose leak flag is false. -/
theorem C1_marker_partition (m : leakMapper) (g : GeoDF) (h : m.gdf = some g) :
    ((plot_popups m).1.map).map FMap.layers =
      some [("Non Zero",
              (g.rows.filter (fun r => placeable r && r.leak)).map (markerFor m.imgdf)),
            ("Zeros",
              (g.rows.filter (fun r => placeable r && !r.leak)).map (markerFor m.imgdf))] := by
  simp [plot_popups, h, placeMarkers_eq]

theorem C1_marker_partition_witness :
    ((plot_popups (mkMapper none (some gdfFix))).1.map).map FMap.layers =
      some [("Non Zero",
              (gdfFix.rows.filter (fun r => placeable r && r.leak)).map
                (markerFor (mkMapper none (some gdfFix)).imgdf)),
            ("Zeros",
              (gdfFix.rows.filter (fun r => placeable r && !r.leak)).map
                (markerFor (mkMapper none (some gdfFix)).imgdf))] :=
  C1_marker_partition (mkMapper none (some gdfFix)) gdfFix rfl

/-- C2 counterexample: the claim says rows with a non-finite (NaN or
infinite) coordinate produce no marker; but the source's guard is
`np.isnan`, which is false on infinity, so a row with latitude `+inf` is
placed: one marker lands in the "Non Zero" layer. -/
theorem C2_counterexample :
    rowInfLat.latitude.isFinite = false ∧
    ((plot_popups (mkMapper none (some gdfInf))).1.map).map
        (fun fm => fm.layers.map (fun l => (l.1, l.2.length))) =
      some [("Non Zero", 1), ("Zeros", 0)] := by
  decide

/-- C2 (amended): rows with a NaN coordinate produce no marker and no
printed output (the loop's result over a table equals its result over the
table without those rows), and every placed marker's location is NaN-free
— present, though not necessarily finite. -/
theorem C2_nan_rows_skipped (imgdf : List PhotoRow) (rows : List Row) :
    placeMarkers imgdf rows = placeMarkers imgdf (rows.filter placeable)
    ∧ ∀ mk ∈ (placeMarkers imgdf rows).1 ++ (placeMarkers imgdf rows).2.1,
        ∀ x ∈ mk.location, x.isnan = false :=
  ⟨placeMarkers_skip imgdf rows, placeMarkers_nonnan imgdf rows⟩

set_option maxRecDepth 100000 in
theorem C2_nan_rows_skipped_witness :
    placeMarkers photosFix [rowLeak, rowNan]
      = placeMarkers photosFix ([rowLeak, rowNan].filter placeable)
    ∧ (PFloat.val 43).isnan = false :=
  ⟨(C2_nan_rows_skipped photosFix [rowLeak, rowNan]).1,
   (C2_nan_rows_skipped photosFix [rowLeak, rowNan]).2
     (markerFor photosFix rowLeak) (by decide) (.val 43) (by decide)⟩

/-- C7: calling `set_gdf` with no loaded DataFrame, or `plot_popups` with
no GeoDataFrame, prints a diagnostic and returns early; the object is
returned entirely unchanged (in particular `df`, `gdf`, `map`) and nothing
is raised. -/
theorem C7_precondition_noop (m : leakMapper) :
    (m.df = none → set_gdf m = (m, ["DataFrame is not set. Call set_df() first."]))
    ∧ (m.gdf = none → plot_popups m = (m, ["GeoDataFrame is not set. Call set_gdf() first."])) := by
  constructor
  · intro h
    simp [set_gdf, h]
  · intro h
    simp [plot_popups, h]

theorem C7_precondition_noop_witness :
    set_gdf (mkMapper none none)
      = (mkMapper none none, ["DataFrame is not set. Call set_df() first."])
    ∧ plot_popups (mkMapper none none)
      = (mkMapper none none, ["GeoDataFrame is not set. Call set_gdf() first."]) :=
  ⟨(C7_precondition_noop (mkMapper none none)).1 rfl,
   (C7_precondition_noop (mkMapper none none)).2 rfl⟩

def photosC5 : List PhotoRow := [⟨7, [72, 105]⟩, ⟨7, [33]⟩]

/-- The map built by the pipeline on the two-row scenario table of the
spec: `rowLeak` = (lon=-70.0, lat=43.0, leak=true, photo_id=1, present in
`photosFix`) and `rowNoLeak` = (lon=-70.5, lat=43.5, leak=false,
photo_id=99, absent). -/
def mapC3 : Option FMap :=
  (plot_popups (set_gdf (mkMapper (some [rowLeak, rowNoLeak]) none)).1).1.map

set_option maxRecDepth 1000000 in
/-- C3: on the two-row scenario table the build yields one marker in each
layer; the leak=false marker's popup contains the placeholder text; the
initial center is latitude 43.25, longitude -70.25 (the spec's pair
`(-70.25, 43.25)` read in its rows' (lon, lat) convention; folium's
`location` list is `[lat, lon]`); and the fitted bounds are
`[[43.0, -70.5], [43.5, -70.0]]`. -/
theorem C3_scenario :
    mapC3.map (fun fm => fm.layers.map (fun l => (l.1, l.2.length)))
      = some [("Non Zero", 1), ("Zeros", 1)]
    ∧ mapC3.map (fun fm => fm.layers.map (fun l =>
        l.2.map (fun mk => containsStr mk.popup "No image available")))
      = some [[false], [true]]
    ∧ mapC3.map FMap.location = some [.val (173/4), .val (-281/4)]
    ∧ mapC3.map FMap.fitted_bounds
      = some [[.val 43, .val (-141/2)], [.val (87/2), .val (-70)]] := by
  refine ⟨by decide, by decide, ?_, ?_⟩
  · norm_num [mapC3, plot_popups, set_gdf, mkMapper, rowLeak, rowNoLeak, seriesMean,
      PFloat.isnan, PFloat.add, PFloat.divNat]
  · norm_num [mapC3, plot_popups, set_gdf, mkMapper, rowLeak, rowNoLeak, seriesMin,
      seriesMax, PFloat.isnan, PFloat.min2, PFloat.max2, min_def, max_def]

/-- C4 counterexample: claim C4 asserts that after `set_gdf` succeeds the
table's CRS is assigned to WGS84 (EPSG:4326); in the source `set_gdf`
builds the GeoDataFrame without any CRS (the `set_crs` call happens later,
inside `plot_popups`), so right after `set_gdf` the CRS is unset. -/
theorem C4_counterexample :
    ¬ (((set_gdf (mkMapper (some [rowLeak]) none)).1.gdf).map GeoDF.crs
        = some (some 4326)) := by
  decide

/-- C4 (amended): `set_gdf` pairs each row's (longitude, latitude) into a
point geometry but leaves the CRS unassigned; the WGS84 CRS (EPSG:4326) is
assigned to the same table subsequently, at the start of `plot_popups`. -/
theorem C4_geometry_then_crs (m : leakMapper) (rows : List Row) (h : m.df = some rows) :
    (set_gdf m).1.gdf
      = some { rows := rows
               geometry := rows.map (fun r => (r.longitude, r.latitude))
               crs := none }
    ∧ ((plot_popups (set_gdf m).1).1.gdf).map GeoDF.crs = some (some 4326) := by
  constructor
  · simp [set_gdf, h]
  · simp [set_gdf, plot_popups, h]

theorem C4_geometry_then_crs_witness :
    (set_gdf (mkMapper (some [rowLeak]) none)).1.gdf
      = some { rows := [rowLeak]
               geometry := [rowLeak].map (fun r => (r.longitude, r.latitude))
               crs := none }
    ∧ ((plot_popups (set_gdf (mkMapper (some [rowLeak]) none)).1).1.gdf).map GeoDF.crs
      = some (some 4326) :=
  C4_geometry_then_crs (mkMapper (some [rowLeak]) none) [rowLeak] rfl

/-- C5: for a photo id present in the photo table, `get_image` returns the
inline JPEG tag whose base64 payload encodes exactly the first matching
row's stored bytes, and decoding that payload reproduces the bytes. -/
theorem C5_image_roundtrip (imgdf : List PhotoRow) (pid : Int) (p : PhotoRow)
    (rest : List PhotoRow)
    (h : imgdf.filter (fun q => q.photo_id == pid) = p :: rest) :
    (get_image imgdf pid).1 =
      "<img src=\"data:image/jpeg;base64," ++ String.mk (b64encode p.photo) ++
      "\" width=\"150\" height=\"100\">"
    ∧ b64decode (b64encode p.photo) = some (p.photo.map Fin.val) := by
  constructor
  · simp [get_image, h]
  · exact b64_roundtrip p.photo

theorem C5_image_roundtrip_witness :
    (get_image photosC5 7).1 =
      "<img src=\"data:image/jpeg;base64," ++
      String.mk (b64encode (⟨7, [72, 105]⟩ : PhotoRow).photo) ++
      "\" width=\"150\" height=\"100\">"
    ∧ b64decode (b64encode (⟨7, [72, 105]⟩ : PhotoRow).photo)
      = some ((⟨7, [72, 105]⟩ : PhotoRow).photo.map Fin.val) :=
  C5_image_roundtrip photosC5 7 ⟨7, [72, 105]⟩ [⟨7, [33]⟩] rfl

/-- C6: a photo id with no matching row never raises: `get_image` returns
the literal "No image available" placeholder (printing a message); when
several rows match, the first match is used; and a placeable row always
yields exactly one marker whatever the photo lookup's outcome, so a
missing photo never aborts the map build. -/
theorem C6_missing_photo (imgdf : List PhotoRow) (pid : Int) :
    (imgdf.filter (fun q => q.photo_id == pid) = [] →
      get_image imgdf pid =
        ("<p>No image available</p>",
         ["No matching image found for photo_id == " ++ toString pid]))
    ∧ (∀ p rest, imgdf.filter (fun q => q.photo_id == pid) = p :: rest →
        (get_image imgdf pid).1 =
          "<img src=\"data:image/jpeg;base64," ++ String.mk (b64encode p.photo) ++
          "\" width=\"150\" height=\"100\">")
    ∧ (∀ r : Row, placeable r = true →
        (placeMarkers imgdf [r]).1.length + (placeMarkers imgdf [r]).2.1.length = 1) := by
  refine ⟨?_, ?_, ?_⟩
  · intro h
    simp [get_image, h]
  · intro p rest h
    simp [get_image, h]
  · intro r hp
    have hg : (!(r.latitude.isnan || r.longitude.isnan)) = true := hp
    cases hl : r.leak <;> simp [placeMarkers, hg, hl]

theorem C6_missing_photo_witness :
    get_image photosFix 99 =
      ("<p>No image available</p>",
       ["No matching image found for photo_id == " ++ toString (99 : Int)])
    ∧ (get_image photosC5 7).1 =
      "<img src=\"data:image/jpeg;base64," ++
      String.mk (b64encode (⟨7, [72, 105]⟩ : PhotoRow).photo) ++
      "\" width=\"150\" height=\"100\">"
    ∧ (placeMarkers photosFix [rowNoLeak]).1.length
        + (placeMarkers photosFix [rowNoLeak]).2.1.length = 1 :=
  ⟨(C6_missing_photo photosFix 99).1 rfl,
   (C6_missing_photo photosC5 7).2.1 ⟨7, [72, 105]⟩ [⟨7, [33]⟩] rfl,
   (C6_missing_photo photosFix 99).2.2 rowNoLeak (by decide)⟩

/-- C8 counterexample: the claim says the fitted bounds are computed
exactly over all placed points, but pandas' NaN-skipping min/max work per
column: `rowNan` (latitude NaN, longitude -80) is never placed, yet its
longitude still enters `min_lon`, so the fitted bounds differ from the
bounds over the placed points alone. -/
theorem C8_counterexample :
    ((plot_popups (set_gdf (mkMapper (some [rowNan, rowLeak]) none)).1).1.map).map
        FMap.fitted_bounds
      ≠ some (boundsRows ([rowNan, rowLeak].filter placeable)) := by
  norm_num [plot_popups, set_gdf, mkMapper, rowNan, rowLeak, seriesMin, seriesMax,
    PFloat.isnan, PFloat.min2, PFloat.max2, boundsRows, placeable, min_def, max_def]

/-- C8 (amended): the fitted bounds are
`[[min_lat, min_lon], [max_lat, max_lon]]` with each min/max taken per
coordinate column over that column's non-NaN values (so a row with exactly
one NaN coordinate still contributes its other coordinate although it is
not placed); whenever every row has either both or neither coordinate NaN,
this equals the bounding box of the placed points, and the fit-bounds step
records this box on the map (the source's authoritative viewport step,
after the mean-center/zoom-13 initial guess). -/
theorem C8_fitted_bounds (m : leakMapper) (rows : List Row) (hdf : m.df = some rows)
    (h : ∀ r ∈ rows, r.latitude.isnan = r.longitude.isnan) :
    ((plot_popups (set_gdf m).1).1.map).map FMap.fitted_bounds
      = some (boundsRows (rows.filter placeable)) := by
  have hlat : ∀ r ∈ rows, r.latitude.isnan = !(placeable r) := by
    intro r hr
    have hh := h r hr
    unfold placeable
    rw [← hh]
    cases hl : r.latitude.isnan <;> simp [hl]
  have hlon : ∀ r ∈ rows, r.longitude.isnan = !(placeable r) := by
    intro r hr
    have hh := h r hr
    unfold placeable
    rw [hh]
    cases hl : r.longitude.isnan <;> simp [hl]
  obtain ⟨hminlat, hmaxlat⟩ := series_placed (fun r => r.latitude) rows hlat
  obtain ⟨hminlon, hmaxlon⟩ := series_placed (fun r => r.longitude) rows hlon
  simp [set_gdf, hdf, plot_popups, boundsRows, List.map_map, Function.comp,
        hminlat, hmaxlat, hminlon, hmaxlon]
  exact ⟨⟨hminlat, hminlon⟩, hmaxlat, hmaxlon⟩

theorem C8_fitted_bounds_witness :
    ((plot_popups (set_gdf (mkMapper (some [rowLeak, rowNoLeak]) none)).1).1.map).map
        FMap.fitted_bounds
      = some (boundsRows ([rowLeak, rowNoLeak].filter placeable)) :=
  C8_fitted_bounds (mkMapper (some [rowLeak, rowNoLeak]) none) [rowLeak, rowNoLeak]
    rfl (by decide)

/-- C9: `main` constructs the mapper with only `PATH_TO_DB` and
`TABLE_NAME` — two of the three required positional arguments — so the
call raises a `TypeError` at the construction call site, before `__init__`
runs, before any database access, and before any pipeline stage: the
outcome is the same error for every database state and nothing is
printed. -/
theorem C9_main_arity (db : Database) :
    main_entry db
      = (.error "TypeError: __init__ takes 4 positional arguments: missing city", []) :=
  rfl

/-- C10: `__init__` eagerly reads the whole `photos` table with no error
handling — if the database is unreachable or the table absent, the read's
error propagates from construction (no logging, no instance); on success
the instance holds exactly the table in `imgdf` with `df`, `gdf`, `map`
unset; and no later operation (`set_df`, `set_gdf`, `plot_popups`) ever
changes `imgdf`. -/
theorem C10_eager_photos (db : Database) (p t c : String) :
    (db.reachable = false →
      leakMapper_init db p t c = .error "unable to open database file")
    ∧ (db.reachable = true → db.photos = none →
      leakMapper_init db p t c = .error "Table photos not found")
    ∧ (∀ tab, db.reachable = true → db.photos = some tab →
      leakMapper_init db p t c = .ok
        { conn := false, path_to_db := p, table := t, city := c, df := none,
          gdf := none, map := none, map_name := c ++ "_maine_map.html",
          imgdf := tab })
    ∧ (∀ m : leakMapper,
        (set_gdf m).1.imgdf = m.imgdf
        ∧ (plot_popups m).1.imgdf = m.imgdf
        ∧ ∀ m2 logs, set_df db m = (.ok m2, logs) → m2.imgdf = m.imgdf) := by
  refine ⟨?_, ?_, ?_, ?_⟩
  · intro h
    simp [leakMapper_init, read_sql_table_photos, h]
  · intro h1 h2
    simp [leakMapper_init, read_sql_table_photos, h1, h2]
  · intro tab h1 h2
    simp [leakMapper_init, read_sql_table_photos, h1, h2]
  · intro m
    refine ⟨?_, ?_, ?_⟩
    · cases h : m.df <;> simp [set_gdf, h]
    · cases h : m.gdf <;> simp [plot_popups, h]
    · intro m2 logs heq
      cases h : read_sql_table db m.table with
      | error e => simp [set_df, h] at heq
      | ok rows =>
        simp [set_df, h] at heq
        obtain ⟨h1, h2⟩ := heq
        subst h1
        rfl

def dbUnreachable : Database := { reachable := false, tables := [], photos := none }

def dbNoPhotos : Database := { reachable := true, tables := [], photos := none }

def dbOk : Database :=
  { reachable := true, tables := [(TABLE_NAME, [rowLeak])], photos := some photosFix }

theorem C10_eager_photos_witness :
    leakMapper_init dbUnreachable "p" "t" "c" = .error "unable to open database file"
    ∧ leakMapper_init dbNoPhotos "p" "t" "c" = .error "Table photos not found"
    ∧ leakMapper_init dbOk "p" "t" "c" = .ok
        { conn := false, path_to_db := "p", table := "t", city := "c", df := none,
          gdf := none, map := none, map_name := "c" ++ "_maine_map.html",
          imgdf := photosFix }
    ∧ (set_gdf (mkMapper none none)).1.imgdf = (mkMapper none none).imgdf
    ∧ (plot_popups (mkMapper none none)).1.imgdf = (mkMapper none none).imgdf
    ∧ (mkMapper (some [rowLeak]) none).imgdf = (mkMapper none none).imgdf :=
  ⟨(C10_eager_photos dbUnreachable "p" "t" "c").1 rfl,
   (C10_eager_photos dbNoPhotos "p" "t" "c").2.1 rfl rfl,
   (C10_eager_photos dbOk "p" "t" "c").2.2.1 photosFix rfl rfl,
   ((C10_eager_photos dbOk "p" "t" "c").2.2.2 (mkMapper none none)).1,
   ((C10_eager_photos dbOk "p" "t" "c").2.2.2 (mkMapper none none)).2.1,
   ((C10_eager_photos dbOk "p" "t" "c").2.2.2 (mkMapper none none)).2.2
     (mkMapper (some [rowLeak]) none) [reprStr [rowLeak]] rfl⟩
